import Mathlib

/-!
Verification of the EcoNavix eco-route orchestration pipeline
(`src/jhuhacks/src/GreenAIModel.py`).

Modelling conventions:
* Python floats are modelled as exact rationals (`ℚ`); the constants
  `0.95`, `0.9`, `2.31`, `2310` appearing in the source become the exact
  rationals `19/20`, `9/10`, `231/100`, `2310`.
* Python's builtin `round` (round half to even, returning `int`) is
  modelled by `pyRound`.
* Each upstream HTTP service is exogenous: a `World` record supplies the
  response (or `none` for a transport error / raised exception) that the
  corresponding `requests` / `openai` call would have produced.  JSON
  payloads are modelled structurally, with the fields the source reads;
  a list subscript `[0]` on an empty list raises `IndexError` in Python,
  which every adapter catches and turns into `None`, so the model returns
  `none` on the empty list.
* The orchestrator `get_route_recommendation` returns, besides the HTTP
  response, the ordered list of upstream adapter calls it issued, so that
  claims about which adapters were (not) invoked are statable.
-/

/-- One fetched weather record: the fields of the dict built by
`get_weather_data` (temperature, description, wind speed). -/
structure WeatherData where
  temperature : ℚ
  weather : String
  wind_speed : ℚ
  deriving DecidableEq, Repr

/-- The dict returned by `get_energy_data`. -/
structure EnergyData where
  price_per_gallon : ℚ
  period : String
  deriving DecidableEq, Repr

/-- The dict returned by `calculate_emissions` (grams and kilograms of CO₂). -/
structure EmissionsData where
  carbon_g : ℚ
  carbon_kg : ℚ
  deriving DecidableEq, Repr

/-- The dict returned by `get_eco_route`; `emissions` models the key
`route_data["emissions"]` attached later by the orchestrator (absent,
i.e. `none`, until then). -/
structure RouteData where
  distance_km : ℚ
  duration_minutes : ℤ
  coordinates : List (ℚ × ℚ)
  directions : List String
  emissions : Option EmissionsData := none
  deriving DecidableEq, Repr

/-- The caller-supplied vehicle dict; each field is `none` when the key is
absent from the JSON object (`vehicle['type']` etc. then raises `KeyError`). -/
structure Vehicle where
  type : Option String
  efficiency : Option ℚ
  fuel_type : Option String
  deriving DecidableEq, Repr

/-- The five caller-supplied credentials, each `none` when absent. -/
structure ApiKeys where
  EIA_API_KEY : Option String := none
  CARBON_INTERFACE_API_KEY : Option String := none
  WEATHER_API_KEY : Option String := none
  OPENROUTESERVICE_API_KEY : Option String := none
  OPENAI_API_KEY : Option String := none
  deriving DecidableEq, Repr

/-- The JSON body of a request to `/get_route_recommendation`;
`origin_coords` / `destination_coords` are `[lat, lon]` pairs. -/
structure Request where
  origin_coords : Option (ℚ × ℚ) := none
  destination_coords : Option (ℚ × ℚ) := none
  vehicle : Option Vehicle := none
  api_keys : ApiKeys := {}
  deriving DecidableEq, Repr

/-- One row of the EIA series `data['response']['data']`. -/
structure EiaRow where
  value : ℚ
  period : String
  deriving DecidableEq, Repr

/-- An EIA HTTP response: status code and the data rows of the payload. -/
structure EiaHttp where
  status : ℕ
  rows : List EiaRow
  deriving DecidableEq, Repr

/-- A Carbon Interface HTTP response: status code and the
`data.attributes.carbon_g` field of the payload. -/
structure CarbonHttp where
  status : ℕ
  carbon_g : ℚ
  deriving DecidableEq, Repr

/-- An OpenWeatherMap HTTP response: status code and the payload fields
read by `get_weather_data`; `descriptions` is the list
`weather_data['weather']` (of which the source reads `[0]['description']`). -/
structure WeatherHttp where
  status : ℕ
  temp : ℚ
  descriptions : List String
  wind_speed : ℚ
  deriving DecidableEq, Repr

/-- One step inside an ORS segment; `instruction` is `none` when the step
dict has no `"instruction"` key. -/
structure OrsStep where
  instruction : Option String
  deriving DecidableEq, Repr

/-- One ORS segment: `duration` (seconds), `distance` (metres), steps. -/
structure OrsSegment where
  duration : ℚ
  distance : ℚ
  steps : List OrsStep
  deriving DecidableEq, Repr

/-- One ORS route feature: its geometry coordinates, stored by the
upstream in `(longitude, latitude)` order, and its property segments. -/
structure OrsFeature where
  coordinates : List (ℚ × ℚ)
  segments : List OrsSegment
  deriving DecidableEq, Repr

/-- An OpenRouteService HTTP response: status code and the feature list of
the GeoJSON payload (an absent `"features"` key is modelled as `[]`). -/
structure OrsHttp where
  status : ℕ
  features : List OrsFeature
  deriving DecidableEq, Repr

/-- The behaviour of the five upstream services for one request: each field
is the HTTP response (or generated text) the service produces, `none`
meaning the call raised (transport error / API exception).  Weather is a
function of the queried location name. -/
structure World where
  ors : Option OrsHttp := none
  eia : Option EiaHttp := none
  weather : String → Option WeatherHttp := fun _ => none
  carbon : Option CarbonHttp := none
  openai : Option String := none

/-- Python's builtin `round` on a rational: nearest integer, ties to even. -/
def pyRound (q : ℚ) : ℤ :=
  if q - ⌊q⌋ < 1/2 then ⌊q⌋
  else if q - ⌊q⌋ > 1/2 then ⌊q⌋ + 1
  else if ⌊q⌋ % 2 = 0 then ⌊q⌋ else ⌊q⌋ + 1

/-- `get_energy_data`: on a 200 response return the first data row's value
and period; a non-200 status returns `None`, and an empty series raises
`IndexError`, caught and turned into `None`. -/
def get_energy_data (resp : Option EiaHttp) : Option EnergyData :=
  match resp with
  | none => none
  | some r =>
    if r.status = 200 then
      match r.rows with
      | [] => none
      | row :: _ => some { price_per_gallon := row.value, period := row.period }
    else none

/-- `calculate_emissions`: on a 201 (created) response return grams and
grams/1000; any other status (or a raised exception) yields `None`.
The `distance_km` argument is forwarded to the upstream payload and does
not otherwise affect the result. -/
def calculate_emissions (distance_km : ℚ) (resp : Option CarbonHttp) :
    Option EmissionsData :=
  match resp with
  | none => none
  | some r =>
    if r.status = 201 then
      some { carbon_g := r.carbon_g, carbon_kg := r.carbon_g / 1000 }
    else none

/-- `get_weather_data`: on a 200 response return temperature, the first
weather entry's description, and wind speed; non-200 returns `None`; an
empty `weather` list raises `IndexError`, caught and turned into `None`. -/
def get_weather_data (location : String) (upstream : String → Option WeatherHttp) :
    Option WeatherData :=
  match upstream location with
  | none => none
  | some r =>
    if r.status = 200 then
      match r.descriptions with
      | [] => none
      | d :: _ =>
        some { temperature := r.temp, weather := d, wind_speed := r.wind_speed }
    else none

/-- `get_eco_route`: swap the caller's `(lat, lon)` pairs into `(lon, lat)`
for the upstream request; on a 200 response with a nonempty feature list,
build the route dict — swapping each geometry coordinate back to
`(lat, lon)`, rounding the first segment's duration (seconds) to minutes
and converting its distance to km, and collecting every segment step's
instruction.  A non-200 status or an empty feature list returns `None`;
a first feature with no segments raises `IndexError` on
`properties["segments"][0]`, caught and turned into `None`. -/
def get_eco_route (origin_coords destination_coords : ℚ × ℚ)
    (resp : Option OrsHttp) : Option RouteData :=
  let _formatted_origin := (origin_coords.2, origin_coords.1)
  let _formatted_destination := (destination_coords.2, destination_coords.1)
  match resp with
  | none => none
  | some r =>
    if r.status ≠ 200 then none
    else
      match r.features with
      | [] => none
      | f :: _ =>
        match f.segments with
        | [] => none
        | seg :: _ =>
          some { distance_km := seg.distance / 1000
               , duration_minutes := pyRound (seg.duration / 60)
               , coordinates := f.coordinates.map (fun c => (c.2, c.1))
               , directions :=
                   (f.segments.map (fun s => s.steps.filterMap OrsStep.instruction)).flatten
               , emissions := none }

/-- The nested dict `{"carbon_kg": …}` inside the optimized-route dict. -/
structure OptimizedCarbon where
  carbon_kg : ℚ
  deriving DecidableEq, Repr

/-- The dict returned by `simulate_optimized_route`. -/
structure OptimizedRoute where
  optimized_distance_km : ℚ
  optimized_duration_minutes : ℤ
  optimized_carbon_emissions : OptimizedCarbon
  deriving DecidableEq, Repr

/-- `simulate_optimized_route`: same distance, duration rounded down by 5 %,
emissions scaled by 0.9.  Reading `route_data["emissions"]` raises
`KeyError` when the orchestrator has not attached emissions, modelled by
`none`. -/
def simulate_optimized_route (route_data : RouteData) : Option OptimizedRoute :=
  match route_data.emissions with
  | none => none
  | some em =>
    some { optimized_distance_km := route_data.distance_km
         , optimized_duration_minutes :=
             pyRound ((route_data.duration_minutes : ℚ) * (19/20))
         , optimized_carbon_emissions := { carbon_kg := em.carbon_kg * (9/10) } }

/-- The structured content of the prompt string built by
`generate_openai_prompt`.  The claims under verification concern only which
data the prompt embeds and whether its construction raises, so the prompt
is modelled as this record of the values interpolated into the f-string
rather than as rendered text (Python's float formatting is outside the
model). -/
structure Prompt where
  distance_km : ℚ
  duration_minutes : ℤ
  price_per_gallon : ℚ
  carbon_kg : ℚ
  weather_origin : WeatherData
  weather_destination : WeatherData
  vehicle_type : String
  vehicle_efficiency : ℚ
  vehicle_fuel_type : String
  deriving DecidableEq, Repr

/-- `generate_openai_prompt`: interpolate route, energy, emissions, both
weather records and the vehicle fields into the prompt.  `vehicle['type']`
raises `TypeError` when `vehicle` is `None` and `KeyError` when a key is
missing; either exception escapes this function (it has no handler), so the
model returns `none` exactly then. -/
def generate_openai_prompt (route_data : RouteData) (energy_data : EnergyData)
    (carbon_emissions : EmissionsData)
    (weather_origin weather_destination : WeatherData)
    (vehicle : Option Vehicle) : Option Prompt :=
  match vehicle with
  | none => none
  | some v =>
    match v.type, v.efficiency, v.fuel_type with
    | some t, some eff, some ft =>
      some { distance_km := route_data.distance_km
           , duration_minutes := route_data.duration_minutes
           , price_per_gallon := energy_data.price_per_gallon
           , carbon_kg := carbon_emissions.carbon_kg
           , weather_origin := weather_origin
           , weather_destination := weather_destination
           , vehicle_type := t
           , vehicle_efficiency := eff
           , vehicle_fuel_type := ft }
    | _, _, _ => none

/-- `get_openai_recommendation`: return the generated text stripped of
surrounding whitespace; any exception (transport, API error) is caught and
replaced by the fixed placeholder string. -/
def get_openai_recommendation (prompt : Prompt) (resp : Option String) : String :=
  match resp with
  | none => "Failed to generate recommendation."
  | some s => s.trim

/-- One branch (`original` or `optimized`) of the comparison dict. -/
structure ComparisonBranch where
  distance_km : ℚ
  duration_minutes : ℤ
  carbon_emissions_kg : ℚ
  deriving DecidableEq, Repr

/-- The `comparison` dict of the success response. -/
structure Comparison where
  original : ComparisonBranch
  optimized : ComparisonBranch
  deriving DecidableEq, Repr

/-- The JSON body of a response from `/get_route_recommendation`. -/
inductive Body where
  | error (msg : String)
  | success (route : List (ℚ × ℚ)) (directions : List String)
      (comparison : Comparison) (recommendation : String)
  deriving DecidableEq, Repr

/-- An HTTP response: body plus status code (`jsonify` defaults to 200). -/
structure Response where
  body : Body
  status : ℕ
  deriving DecidableEq, Repr

/-- One upstream adapter invocation, with the request-dependent arguments
the orchestrator passes it. -/
inductive Call where
  | route (origin_coords destination_coords : ℚ × ℚ)
  | energy
  | weather (location : String)
  | emissions (distance_km : ℚ)
  | openai (prompt : Prompt)
  deriving DecidableEq, Repr

/-- Whether a recorded call is a weather lookup. -/
def Call.isWeather : Call → Bool
  | .weather _ => true
  | _ => false

/-- Python truthiness of an optional credential string: `None` and the
empty string are falsy. -/
def truthyKey : Option String → Bool
  | none => false
  | some s => !(s == "")

/-- The guard `all([EIA_API_KEY, …, OPENAI_API_KEY])` of the validation
step: every one of the five credentials is present and truthy. -/
def allKeysPresent (k : ApiKeys) : Bool :=
  truthyKey k.EIA_API_KEY && truthyKey k.CARBON_INTERFACE_API_KEY &&
    truthyKey k.WEATHER_API_KEY && truthyKey k.OPENROUTESERVICE_API_KEY &&
    truthyKey k.OPENAI_API_KEY

/-- The message of the 500 response produced by the outer exception handler
(`"Internal server error: {e}"` — the interpolated Python exception text is
outside the model). -/
def internalServerError : String := "Internal server error"

/-- The fallback emissions dict the orchestrator substitutes when
`calculate_emissions` fails: `distance_km * 2310` grams,
`distance_km * 2.31` kilograms. -/
def emissionsFallback (distance_km : ℚ) : EmissionsData :=
  { carbon_g := distance_km * 2310, carbon_kg := distance_km * (231/100) }

/-- The `/get_route_recommendation` handler: validate credentials then
coordinates (400 on failure, before any upstream call); route and energy
lookups are fatal (400, remaining steps skipped); the two weather lookups
fall back to fixed defaults; emissions falls back to the linear
`2.31 kg/km` estimate; emissions are attached to the route dict before the
optimized-route simulation and prompt construction; an exception in either
of those reaches the outer handler (500); the recommendation call never
raises; finally the comparison and success response are assembled.
The second component of the result is the ordered list of upstream calls
issued. -/
def get_route_recommendation (req : Request) (w : World) :
    Response × List Call :=
  if !(allKeysPresent req.api_keys) then
    ({ body := .error "All five API keys are required.", status := 400 }, [])
  else
    match req.origin_coords, req.destination_coords with
    | some origin_coords, some destination_coords =>
      match get_eco_route origin_coords destination_coords w.ors with
      | none =>
        ({ body := .error "Unable to calculate route with provided coordinates."
         , status := 400 }, [Call.route origin_coords destination_coords])
      | some route0 =>
        match get_energy_data w.eia with
        | none =>
          ({ body := .error "Unable to retrieve energy data from EIA API."
           , status := 400 },
           [Call.route origin_coords destination_coords, Call.energy])
        | some energy_data =>
          let weather_origin :=
            (get_weather_data "San Francisco" w.weather).getD
              { temperature := 20, weather := "clear", wind_speed := 5 }
          let weather_destination :=
            (get_weather_data "Los Angeles" w.weather).getD
              { temperature := 25, weather := "clear", wind_speed := 5 }
          let carbon_emissions :=
            (calculate_emissions route0.distance_km w.carbon).getD
              (emissionsFallback route0.distance_km)
          let route_data := { route0 with emissions := some carbon_emissions }
          let trace :=
            [ Call.route origin_coords destination_coords, Call.energy
            , Call.weather "San Francisco", Call.weather "Los Angeles"
            , Call.emissions route0.distance_km ]
          match simulate_optimized_route route_data with
          | none => ({ body := .error internalServerError, status := 500 }, trace)
          | some optimized_route =>
            match generate_openai_prompt route_data energy_data carbon_emissions
                weather_origin weather_destination req.vehicle with
            | none =>
              ({ body := .error internalServerError, status := 500 }, trace)
            | some prompt =>
              let recommendation := get_openai_recommendation prompt w.openai
              let comparison : Comparison :=
                { original :=
                    { distance_km := route_data.distance_km
                    , duration_minutes := route_data.duration_minutes
                    , carbon_emissions_kg := carbon_emissions.carbon_kg }
                , optimized :=
                    { distance_km := optimized_route.optimized_distance_km
                    , duration_minutes := optimized_route.optimized_duration_minutes
                    , carbon_emissions_kg :=
                        optimized_route.optimized_carbon_emissions.carbon_kg } }
              ({ body := .success route_data.coordinates route_data.directions
                   comparison recommendation
               , status := 200 }, trace ++ [Call.openai prompt])
    | _, _ =>
      ({ body := .error "Both origin_coords and destination_coords must be provided."
       , status := 400 }, [])

/-! ## Concrete fixtures

A request and upstream world realising the spec's end-to-end scenario:
origin `(37.7749, -122.4194)`, destination `(34.0522, -118.2437)`,
`distance_km = 559`, `duration_minutes = 300`, emissions `50 kg`.
Decimal degrees are written as explicit fractions. -/

def exKeys : ApiKeys :=
  { EIA_API_KEY := some "e", CARBON_INTERFACE_API_KEY := some "c"
  , WEATHER_API_KEY := some "w", OPENROUTESERVICE_API_KEY := some "r"
  , OPENAI_API_KEY := some "o" }

def exVehicle : Vehicle :=
  { type := some "sedan", efficiency := some 15, fuel_type := some "petrol" }

def exOrigin : ℚ × ℚ := (377749/10000, -(1224194/10000))

def exDestination : ℚ × ℚ := (340522/10000, -(1182437/10000))

def exReq : Request :=
  { origin_coords := some exOrigin
  , destination_coords := some exDestination
  , vehicle := some exVehicle
  , api_keys := exKeys }

def exOrs : OrsHttp :=
  { status := 200
  , features :=
      [ { coordinates :=
            [(-(1224194/10000), 377749/10000), (-(1182437/10000), 340522/10000)]
        , segments :=
            [ { duration := 18000, distance := 559000
              , steps := [{ instruction := some "Head south" }] } ] } ] }

def exWorld : World :=
  { ors := some exOrs
  , eia := some { status := 200, rows := [{ value := 7/2, period := "2025-01" }] }
  , weather := fun loc =>
      if loc = "San Francisco" then
        some { status := 200, temp := 18, descriptions := ["mist"], wind_speed := 3 }
      else if loc = "Los Angeles" then
        some { status := 200, temp := 28, descriptions := ["sunny"], wind_speed := 4 }
      else none
  , carbon := some { status := 201, carbon_g := 50000 }
  , openai := some "Drive less." }

/-- The `RouteData` that `get_eco_route` produces from `exOrs`. -/
def exRoute : RouteData :=
  { distance_km := 559
  , duration_minutes := 300
  , coordinates :=
      [(377749/10000, -(1224194/10000)), (340522/10000, -(1182437/10000))]
  , directions := ["Head south"] }

/-! ## Theorems -/

/-- Helper: the full shape of a run in which validation passes, routing and
energy succeed, and the vehicle dict carries all three fields — the
response is the 200 success assembled from the route, the (possibly
defaulted) weather, the (possibly fallback) emissions and the
recommendation, and the trace lists all six upstream calls in order. -/
theorem run_success (req : Request) (w : World) (o d : ℚ × ℚ)
    (r : RouteData) (e : EnergyData) (v : Vehicle) (t : String) (eff : ℚ)
    (ft : String)
    (hkeys : allKeysPresent req.api_keys = true)
    (ho : req.origin_coords = some o) (hd : req.destination_coords = some d)
    (hr : get_eco_route o d w.ors = some r)
    (he : get_energy_data w.eia = some e)
    (hveh : req.vehicle = some v)
    (ht : v.type = some t) (heff : v.efficiency = some eff)
    (hft : v.fuel_type = some ft) :
    get_route_recommendation req w =
      ({ body := Body.success r.coordinates r.directions
           { original :=
               { distance_km := r.distance_km
               , duration_minutes := r.duration_minutes
               , carbon_emissions_kg :=
                   ((calculate_emissions r.distance_km w.carbon).getD
                     (emissionsFallback r.distance_km)).carbon_kg }
           , optimized :=
               { distance_km := r.distance_km
               , duration_minutes := pyRound ((r.duration_minutes : ℚ) * (19/20))
               , carbon_emissions_kg :=
                   ((calculate_emissions r.distance_km w.carbon).getD
                     (emissionsFallback r.distance_km)).carbon_kg * (9/10) } }
           (get_openai_recommendation
             { distance_km := r.distance_km
             , duration_minutes := r.duration_minutes
             , price_per_gallon := e.price_per_gallon
             , carbon_kg :=
                 ((calculate_emissions r.distance_km w.carbon).getD
                   (emissionsFallback r.distance_km)).carbon_kg
             , weather_origin :=
                 (get_weather_data "San Francisco" w.weather).getD
                   { temperature := 20, weather := "clear", wind_speed := 5 }
             , weather_destination :=
                 (get_weather_data "Los Angeles" w.weather).getD
                   { temperature := 25, weather := "clear", wind_speed := 5 }
             , vehicle_type := t
             , vehicle_efficiency := eff
             , vehicle_fuel_type := ft } w.openai)
       , status := 200 },
       [ Call.route o d, Call.energy
       , Call.weather "San Francisco", Call.weather "Los Angeles"
       , Call.emissions r.distance_km
       , Call.openai
           { distance_km := r.distance_km
           , duration_minutes := r.duration_minutes
           , price_per_gallon := e.price_per_gallon
           , carbon_kg :=
               ((calculate_emissions r.distance_km w.carbon).getD
                 (emissionsFallback r.distance_km)).carbon_kg
           , weather_origin :=
               (get_weather_data "San Francisco" w.weather).getD
                 { temperature := 20, weather := "clear", wind_speed := 5 }
           , weather_destination :=
               (get_weather_data "Los Angeles" w.weather).getD
                 { temperature := 25, weather := "clear", wind_speed := 5 }
           , vehicle_type := t
           , vehicle_efficiency := eff
           , vehicle_fuel_type := ft } ]) := by
  simp [get_route_recommendation, hkeys, ho, hd, hr, he, hveh, ht, heff, hft,
    simulate_optimized_route, generate_openai_prompt]

/-- Helper: evaluating `get_eco_route` on the fixture ORS response. -/
theorem exRoute_eval :
    get_eco_route exOrigin exDestination (some exOrs) = some exRoute := by
  norm_num [get_eco_route, exOrs, exRoute, exOrigin, exDestination, pyRound,
    List.filterMap_cons, List.filterMap_nil]

/-- Helper: evaluating `get_energy_data` on the fixture EIA response. -/
theorem exEnergy_eval :
    get_energy_data exWorld.eia = some { price_per_gallon := 7/2, period := "2025-01" } :=
  rfl

/-- Helper: the fixture request carries all five credentials. -/
theorem exKeys_present : allKeysPresent exKeys = true := by decide

/-- C1: for every request that passes input validation, a routing failure
yields a 400 response with the route lookup as the only upstream call, and
an energy-price failure after a successful route yields a 400 response
with route and energy as the only upstream calls — every later step
(weather, emissions, optimized-route derivation, recommendation, assembly)
is skipped. -/
theorem C1_fatal_abort_propagation (req : Request) (w : World) (o d : ℚ × ℚ)
    (hkeys : allKeysPresent req.api_keys = true)
    (ho : req.origin_coords = some o) (hd : req.destination_coords = some d) :
    (get_eco_route o d w.ors = none →
      (get_route_recommendation req w).1.status = 400 ∧
      (get_route_recommendation req w).2 = [Call.route o d]) ∧
    (∀ r, get_eco_route o d w.ors = some r → get_energy_data w.eia = none →
      (get_route_recommendation req w).1.status = 400 ∧
      (get_route_recommendation req w).2 = [Call.route o d, Call.energy]) := by
  constructor
  · intro h
    simp [get_route_recommendation, hkeys, ho, hd, h]
  · intro r hr he
    simp [get_route_recommendation, hkeys, ho, hd, hr, he]

/-- C1 witness: on the fixture request with a failing routing upstream, the
response is a 400 and the only upstream call is the route lookup. -/
theorem C1_fatal_abort_propagation_witness :
    (get_route_recommendation exReq { exWorld with ors := none }).1.status = 400 ∧
    (get_route_recommendation exReq { exWorld with ors := none }).2 =
      [Call.route exOrigin exDestination] :=
  (C1_fatal_abort_propagation exReq { exWorld with ors := none }
    exOrigin exDestination exKeys_present rfl rfl).1 rfl

/-- C6: a request missing any one of the five credentials, or missing
either coordinate pair, gets a 400 validation response with no upstream
adapter call at all. -/
theorem C6_fail_fast_validation (req : Request) (w : World)
    (h : allKeysPresent req.api_keys = false ∨ req.origin_coords = none ∨
      req.destination_coords = none) :
    (get_route_recommendation req w).1.status = 400 ∧
    (get_route_recommendation req w).2 = [] := by
  rcases h with h | h | h
  · simp [get_route_recommendation, h]
  · cases hk : allKeysPresent req.api_keys <;>
      simp [get_route_recommendation, hk, h]
  · cases hk : allKeysPresent req.api_keys <;>
      cases ho : req.origin_coords <;>
      simp [get_route_recommendation, hk, h, ho]

/-- C6 witness: dropping only the OpenAI credential from the fixture
request yields a 400 with an empty call trace. -/
theorem C6_fail_fast_validation_witness :
    (get_route_recommendation
      { exReq with api_keys := { exKeys with OPENAI_API_KEY := none } }
      exWorld).1.status = 400 ∧
    (get_route_recommendation
      { exReq with api_keys := { exKeys with OPENAI_API_KEY := none } }
      exWorld).2 = [] :=
  C6_fail_fast_validation _ exWorld (Or.inl (by decide))

/-- C4: for every route dict with attached emissions and positive original
values, the optimized estimate keeps the distance, rounds the duration
scaled by 0.95, and scales the emissions by 0.9. -/
theorem C4_optimized_route_derivation (rd : RouteData) (em : EmissionsData)
    (hem : rd.emissions = some em)
    (hdist : 0 < rd.distance_km) (hdur : 0 < rd.duration_minutes)
    (hkg : 0 < em.carbon_kg) :
    simulate_optimized_route rd =
      some { optimized_distance_km := rd.distance_km
           , optimized_duration_minutes :=
               pyRound ((rd.duration_minutes : ℚ) * (19/20))
           , optimized_carbon_emissions :=
               { carbon_kg := em.carbon_kg * (9/10) } } := by
  simp [simulate_optimized_route, hem]

/-- C4 witness: distance 559 km, duration 300 min and 50 kg CO₂ yield an
optimized estimate of 559 km, 285 min and 45 kg. -/
theorem C4_optimized_route_derivation_witness :
    simulate_optimized_route
      { distance_km := 559, duration_minutes := 300
      , coordinates := [], directions := []
      , emissions := some { carbon_g := 50000, carbon_kg := 50 } } =
      some { optimized_distance_km := 559, optimized_duration_minutes := 285
           , optimized_carbon_emissions := { carbon_kg := 45 } } := by
  have h := C4_optimized_route_derivation
    { distance_km := 559, duration_minutes := 300, coordinates := []
    , directions := [], emissions := some { carbon_g := 50000, carbon_kg := 50 } }
    { carbon_g := 50000, carbon_kg := 50 } rfl
    (by norm_num) (by norm_num) (by norm_num)
  rw [h]
  norm_num [pyRound]

/-- C7: every emissions dict the pipeline can use satisfies
`carbon_kg = carbon_g / 1000` exactly — both when returned by
`calculate_emissions` and when produced by the orchestrator's fallback. -/
theorem C7_emissions_result_consistency :
    (∀ (dk : ℚ) (resp : Option CarbonHttp) (em : EmissionsData),
        calculate_emissions dk resp = some em →
        em.carbon_kg = em.carbon_g / 1000) ∧
    (∀ dk : ℚ,
        (emissionsFallback dk).carbon_kg = (emissionsFallback dk).carbon_g / 1000) := by
  constructor
  · intro dk resp em h
    cases resp with
    | none => simp [calculate_emissions] at h
    | some r =>
      by_cases hs : r.status = 201
      · simp [calculate_emissions, hs] at h
        subst h
        rfl
      · simp [calculate_emissions, hs] at h
  · intro dk
    simp only [emissionsFallback]
    ring

/-- C7 witness: a 201 response carrying 100 g yields the dict
`{carbon_g := 100, carbon_kg := 1/10}`, which satisfies the invariant. -/
theorem C7_emissions_result_consistency_witness :
    ({ carbon_g := 100, carbon_kg := 1/10 } : EmissionsData).carbon_kg =
      ({ carbon_g := 100, carbon_kg := 1/10 } : EmissionsData).carbon_g / 1000 :=
  C7_emissions_result_consistency.1 5 (some { status := 201, carbon_g := 100 })
    { carbon_g := 100, carbon_kg := 1/10 }
    (by norm_num [calculate_emissions])

/-- C2: when routing and energy succeed, a failed weather lookup is
non-fatal — the request still completes with status 200 and the prompt the
recommendation adapter receives carries, for each location independently,
the fixed default conditions (20 °C / "clear" / 5 m/s for the origin,
25 °C / "clear" / 5 m/s for the destination) when that location's lookup
failed, and the fetched conditions when it succeeded. -/
theorem C2_weather_nonfatal_substitution (req : Request) (w : World)
    (o d : ℚ × ℚ) (r : RouteData) (e : EnergyData) (v : Vehicle)
    (t : String) (eff : ℚ) (ft : String)
    (hkeys : allKeysPresent req.api_keys = true)
    (ho : req.origin_coords = some o) (hd : req.destination_coords = some d)
    (hr : get_eco_route o d w.ors = some r)
    (he : get_energy_data w.eia = some e)
    (hveh : req.vehicle = some v) (ht : v.type = some t)
    (heff : v.efficiency = some eff) (hft : v.fuel_type = some ft) :
    ∃ p : Prompt,
      (get_route_recommendation req w).1.status = 200 ∧
      Call.openai p ∈ (get_route_recommendation req w).2 ∧
      (get_weather_data "San Francisco" w.weather = none →
        p.weather_origin =
          { temperature := 20, weather := "clear", wind_speed := 5 }) ∧
      (∀ wo, get_weather_data "San Francisco" w.weather = some wo →
        p.weather_origin = wo) ∧
      (get_weather_data "Los Angeles" w.weather = none →
        p.weather_destination =
          { temperature := 25, weather := "clear", wind_speed := 5 }) ∧
      (∀ wd, get_weather_data "Los Angeles" w.weather = some wd →
        p.weather_destination = wd) := by
  rw [run_success req w o d r e v t eff ft hkeys ho hd hr he hveh ht heff hft]
  refine ⟨{ distance_km := r.distance_km
          , duration_minutes := r.duration_minutes
          , price_per_gallon := e.price_per_gallon
          , carbon_kg :=
              ((calculate_emissions r.distance_km w.carbon).getD
                (emissionsFallback r.distance_km)).carbon_kg
          , weather_origin :=
              (get_weather_data "San Francisco" w.weather).getD
                { temperature := 20, weather := "clear", wind_speed := 5 }
          , weather_destination :=
              (get_weather_data "Los Angeles" w.weather).getD
                { temperature := 25, weather := "clear", wind_speed := 5 }
          , vehicle_type := t
          , vehicle_efficiency := eff
          , vehicle_fuel_type := ft }, rfl, ?_, ?_, ?_, ?_, ?_⟩
  · simp
  · intro h
    simp [h]
  · intro wo h
    simp [h]
  · intro h
    simp [h]
  · intro wd h
    simp [h]

/-- A world in which the origin ("San Francisco") weather lookup raises and
the destination ("Los Angeles") lookup succeeds. -/
def exWeatherSFDown : String → Option WeatherHttp := fun loc =>
  if loc = "Los Angeles" then
    some { status := 200, temp := 28, descriptions := ["sunny"], wind_speed := 4 }
  else none

def exWorldSF : World := { exWorld with weather := exWeatherSFDown }

/-- C2 witness: on the fixture request with the origin weather lookup
failing and the destination lookup succeeding, the run returns 200 and the
prompt carries the origin defaults and the fetched destination weather. -/
theorem C2_weather_nonfatal_substitution_witness :
    ∃ p : Prompt,
      (get_route_recommendation exReq exWorldSF).1.status = 200 ∧
      Call.openai p ∈ (get_route_recommendation exReq exWorldSF).2 ∧
      (get_weather_data "San Francisco" exWorldSF.weather = none →
        p.weather_origin =
          { temperature := 20, weather := "clear", wind_speed := 5 }) ∧
      (∀ wo, get_weather_data "San Francisco" exWorldSF.weather = some wo →
        p.weather_origin = wo) ∧
      (get_weather_data "Los Angeles" exWorldSF.weather = none →
        p.weather_destination =
          { temperature := 25, weather := "clear", wind_speed := 5 }) ∧
      (∀ wd, get_weather_data "Los Angeles" exWorldSF.weather = some wd →
        p.weather_destination = wd) :=
  C2_weather_nonfatal_substitution exReq exWorldSF exOrigin exDestination
    exRoute { price_per_gallon := 7/2, period := "2025-01" } exVehicle
    "sedan" 15 "petrol" exKeys_present rfl rfl exRoute_eval exEnergy_eval
    rfl rfl rfl rfl

/-- C3: when routing and energy succeed and the emissions upstream fails,
the request still completes with status 200 and the comparison's
"original" branch reports exactly `distance_km * 2.31` kilograms of CO₂. -/
theorem C3_emissions_fallback (req : Request) (w : World)
    (o d : ℚ × ℚ) (r : RouteData) (e : EnergyData) (v : Vehicle)
    (t : String) (eff : ℚ) (ft : String)
    (hkeys : allKeysPresent req.api_keys = true)
    (ho : req.origin_coords = some o) (hd : req.destination_coords = some d)
    (hr : get_eco_route o d w.ors = some r)
    (he : get_energy_data w.eia = some e)
    (hveh : req.vehicle = some v) (ht : v.type = some t)
    (heff : v.efficiency = some eff) (hft : v.fuel_type = some ft)
    (hemfail : calculate_emissions r.distance_km w.carbon = none) :
    (get_route_recommendation req w).1.status = 200 ∧
    ∃ (coords : List (ℚ × ℚ)) (dirs : List String) (comp : Comparison)
      (rec : String),
      (get_route_recommendation req w).1.body = Body.success coords dirs comp rec ∧
      comp.original.carbon_emissions_kg = r.distance_km * (231/100) := by
  rw [run_success req w o d r e v t eff ft hkeys ho hd hr he hveh ht heff hft]
  refine ⟨rfl, r.coordinates, r.directions, _, _, rfl, ?_⟩
  simp [hemfail, emissionsFallback]

/-- C3 witness: on the fixture request with a failing emissions upstream,
the response is a 200 whose original branch carries `559 * 2.31` kg. -/
theorem C3_emissions_fallback_witness :
    (get_route_recommendation exReq { exWorld with carbon := none }).1.status = 200 ∧
    ∃ (coords : List (ℚ × ℚ)) (dirs : List String) (comp : Comparison)
      (rec : String),
      (get_route_recommendation exReq { exWorld with carbon := none }).1.body =
        Body.success coords dirs comp rec ∧
      comp.original.carbon_emissions_kg = exRoute.distance_km * (231/100) :=
  C3_emissions_fallback exReq { exWorld with carbon := none } exOrigin
    exDestination exRoute { price_per_gallon := 7/2, period := "2025-01" }
    exVehicle "sedan" 15 "petrol" exKeys_present rfl rfl exRoute_eval
    exEnergy_eval rfl rfl rfl rfl rfl

/-- C5: when routing and energy succeed, a failing recommendation upstream
never aborts the request — the response still has status 200, its
recommendation is exactly the fixed placeholder string, and the comparison
is fully populated from the route and the (service or fallback) emissions. -/
theorem C5_recommendation_failure_graceful (req : Request) (w : World)
    (o d : ℚ × ℚ) (r : RouteData) (e : EnergyData) (v : Vehicle)
    (t : String) (eff : ℚ) (ft : String)
    (hkeys : allKeysPresent req.api_keys = true)
    (ho : req.origin_coords = some o) (hd : req.destination_coords = some d)
    (hr : get_eco_route o d w.ors = some r)
    (he : get_energy_data w.eia = some e)
    (hveh : req.vehicle = some v) (ht : v.type = some t)
    (heff : v.efficiency = some eff) (hft : v.fuel_type = some ft)
    (hopenai : w.openai = none) :
    (get_route_recommendation req w).1.status = 200 ∧
    (get_route_recommendation req w).1.body =
      Body.success r.coordinates r.directions
        { original :=
            { distance_km := r.distance_km
            , duration_minutes := r.duration_minutes
            , carbon_emissions_kg :=
                ((calculate_emissions r.distance_km w.carbon).getD
                  (emissionsFallback r.distance_km)).carbon_kg }
        , optimized :=
            { distance_km := r.distance_km
            , duration_minutes := pyRound ((r.duration_minutes : ℚ) * (19/20))
            , carbon_emissions_kg :=
                ((calculate_emissions r.distance_km w.carbon).getD
                  (emissionsFallback r.distance_km)).carbon_kg * (9/10) } }
        "Failed to generate recommendation." := by
  rw [run_success req w o d r e v t eff ft hkeys ho hd hr he hveh ht heff hft]
  exact ⟨rfl, by simp [get_openai_recommendation, hopenai]⟩

/-- C5 witness: on the fixture request with the recommendation upstream
failing, the response is a 200 carrying the placeholder string and the
fully evaluated comparison (559 km, 300→285 min, 50→45 kg). -/
theorem C5_recommendation_failure_graceful_witness :
    (get_route_recommendation exReq { exWorld with openai := none }).1.status = 200 ∧
    (get_route_recommendation exReq { exWorld with openai := none }).1.body =
      Body.success exRoute.coordinates exRoute.directions
        { original :=
            { distance_km := 559, duration_minutes := 300
            , carbon_emissions_kg := 50 }
        , optimized :=
            { distance_km := 559, duration_minutes := 285
            , carbon_emissions_kg := 45 } }
        "Failed to generate recommendation." := by
  have h := C5_recommendation_failure_graceful exReq { exWorld with openai := none }
    exOrigin exDestination exRoute { price_per_gallon := 7/2, period := "2025-01" }
    exVehicle "sedan" 15 "petrol" exKeys_present rfl rfl exRoute_eval
    exEnergy_eval rfl rfl rfl rfl rfl
  refine ⟨h.1, ?_⟩
  rw [h.2]
  norm_num [calculate_emissions, exRoute, pyRound, emissionsFallback, exWorld]

/-- C8: whenever the weather lookups happen (validation passed, route and
energy succeeded), the two queried locations are the fixed names
"San Francisco" and "Los Angeles", independent of the request's origin and
destination coordinates. -/
theorem C8_fixed_weather_locations (req : Request) (w : World) (o d : ℚ × ℚ)
    (r : RouteData) (e : EnergyData)
    (hkeys : allKeysPresent req.api_keys = true)
    (ho : req.origin_coords = some o) (hd : req.destination_coords = some d)
    (hr : get_eco_route o d w.ors = some r)
    (he : get_energy_data w.eia = some e) :
    ((get_route_recommendation req w).2).filter Call.isWeather =
      [Call.weather "San Francisco", Call.weather "Los Angeles"] := by
  cases hv : req.vehicle with
  | none =>
    simp [get_route_recommendation, hkeys, ho, hd, hr, he, hv,
      simulate_optimized_route, generate_openai_prompt, Call.isWeather,
      List.filter]
  | some v =>
    obtain ⟨a, b, c⟩ := v
    cases a <;> cases b <;> cases c <;>
      simp [get_route_recommendation, hkeys, ho, hd, hr, he, hv,
        simulate_optimized_route, generate_openai_prompt, Call.isWeather,
        List.filter]

/-- C8 witness: the fully successful fixture run queries exactly
"San Francisco" then "Los Angeles". -/
theorem C8_fixed_weather_locations_witness :
    ((get_route_recommendation exReq exWorld).2).filter Call.isWeather =
      [Call.weather "San Francisco", Call.weather "Los Angeles"] :=
  C8_fixed_weather_locations exReq exWorld exOrigin exDestination exRoute
    { price_per_gallon := 7/2, period := "2025-01" } exKeys_present rfl rfl
    exRoute_eval exEnergy_eval

/-- Helper: prompt construction raises (returns `none`) whenever the
vehicle dict is absent or lacks one of its three fields. -/
theorem generate_openai_prompt_fails (rd : RouteData) (ed : EnergyData)
    (ce : EmissionsData) (wo wd : WeatherData) (v : Option Vehicle)
    (h : v = none ∨ ∃ ve, v = some ve ∧
      (ve.type = none ∨ ve.efficiency = none ∨ ve.fuel_type = none)) :
    generate_openai_prompt rd ed ce wo wd v = none := by
  rcases h with rfl | ⟨ve, rfl, hf⟩
  · rfl
  · obtain ⟨a, b, c⟩ := ve
    cases a <;> cases b <;> cases c <;> simp_all [generate_openai_prompt]

/-- C10: a request with all five credentials and both coordinate pairs but
a missing or incomplete vehicle dict passes validation, goes through the
route, energy, both weather and the emissions steps, and then fails during
prompt construction with a 500 internal error (not a 400), the
recommendation upstream never being called. -/
theorem C10_vehicle_not_validated (req : Request) (w : World) (o d : ℚ × ℚ)
    (r : RouteData) (e : EnergyData)
    (hkeys : allKeysPresent req.api_keys = true)
    (ho : req.origin_coords = some o) (hd : req.destination_coords = some d)
    (hr : get_eco_route o d w.ors = some r)
    (he : get_energy_data w.eia = some e)
    (hveh : req.vehicle = none ∨ ∃ ve, req.vehicle = some ve ∧
      (ve.type = none ∨ ve.efficiency = none ∨ ve.fuel_type = none)) :
    (get_route_recommendation req w).1.status = 500 ∧
    (get_route_recommendation req w).1.body = Body.error internalServerError ∧
    (get_route_recommendation req w).2 =
      [ Call.route o d, Call.energy, Call.weather "San Francisco"
      , Call.weather "Los Angeles", Call.emissions r.distance_km ] := by
  have hp : ∀ (rd : RouteData) (ed : EnergyData) (ce : EmissionsData)
      (wo wd : WeatherData),
      generate_openai_prompt rd ed ce wo wd req.vehicle = none :=
    fun rd ed ce wo wd =>
      generate_openai_prompt_fails rd ed ce wo wd req.vehicle hveh
  simp [get_route_recommendation, hkeys, ho, hd, hr, he,
    simulate_optimized_route, hp]

/-- C10 witness: the fixture request without a vehicle dict, against fully
successful upstreams, yields a 500 after all five upstream data calls. -/
theorem C10_vehicle_not_validated_witness :
    (get_route_recommendation { exReq with vehicle := none } exWorld).1.status = 500 ∧
    (get_route_recommendation { exReq with vehicle := none } exWorld).1.body =
      Body.error internalServerError ∧
    (get_route_recommendation { exReq with vehicle := none } exWorld).2 =
      [ Call.route exOrigin exDestination, Call.energy
      , Call.weather "San Francisco", Call.weather "Los Angeles"
      , Call.emissions exRoute.distance_km ] :=
  C10_vehicle_not_validated { exReq with vehicle := none } exWorld exOrigin
    exDestination exRoute { price_per_gallon := 7/2, period := "2025-01" }
    exKeys_present rfl rfl exRoute_eval exEnergy_eval (Or.inl rfl)

/-- C9 counterexample: a 200 ORS response whose single feature has no
segments makes `get_eco_route` fail (the `segments[0]` subscript raises,
caught into `None`) although the upstream call neither errored, nor
returned a non-success status, nor returned a payload with no route
features — so failure is not *exactly* the three claimed conditions. -/
theorem C9_route_adapter_counterexample :
    get_eco_route (0, 0) (1, 1)
      (some { status := 200
            , features := [{ coordinates := [], segments := [] }] }) = none ∧
    ¬ ((some { status := 200
             , features := [{ coordinates := [], segments := [] }] }
          : Option OrsHttp) = none ∨
        (200 : ℕ) ≠ 200 ∨
        ({ status := 200
         , features := [{ coordinates := [], segments := [] }] }
          : OrsHttp).features = []) := by
  constructor
  · rfl
  · simp

/-- C9 (amended): the route adapter fails exactly when the upstream call
errors, returns a non-success status, returns a payload with no route
features, or returns a malformed payload whose first feature has no
segments; on success the route's path is the payload's geometry with each
coordinate swapped from the upstream (lon, lat) order into (lat, lon). -/
theorem C9_route_adapter_failure_conditions (o d : ℚ × ℚ)
    (resp : Option OrsHttp) :
    (get_eco_route o d resp = none ↔
      resp = none ∨ ∃ r, resp = some r ∧
        (r.status ≠ 200 ∨ r.features = [] ∨
          ∃ f fs, r.features = f :: fs ∧ f.segments = [])) ∧
    (∀ rd, get_eco_route o d resp = some rd →
      ∃ r f fs, resp = some r ∧ r.features = f :: fs ∧
        rd.coordinates = f.coordinates.map (fun c => (c.2, c.1))) := by
  cases resp with
  | none =>
    constructor
    · simp [get_eco_route]
    · intro rd h
      simp [get_eco_route] at h
  | some r =>
    obtain ⟨st, feats⟩ := r
    by_cases hs : st = 200
    · subst hs
      cases feats with
      | nil =>
        constructor
        · simp [get_eco_route]
        · intro rd h
          simp [get_eco_route] at h
      | cons f fs =>
        obtain ⟨cs, segs⟩ := f
        cases segs with
        | nil =>
          constructor
          · simp [get_eco_route]
          · intro rd h
            simp [get_eco_route] at h
        | cons seg rest =>
          constructor
          · simp [get_eco_route]
          · intro rd h
            simp [get_eco_route] at h
            exact ⟨_, _, fs, rfl, rfl, by rw [← h]⟩
    · constructor
      · simp [get_eco_route, hs]
      · intro rd h
        simp [get_eco_route, hs] at h

/-- C9 witness: on the fixture ORS response the adapter succeeds and the
returned path is the payload geometry swapped into (lat, lon) order. -/
theorem C9_route_adapter_failure_conditions_witness :
    ∃ (r : OrsHttp) (f : OrsFeature) (fs : List OrsFeature),
      (some exOrs : Option OrsHttp) = some r ∧ r.features = f :: fs ∧
      exRoute.coordinates = f.coordinates.map (fun c => (c.2, c.1)) :=
  (C9_route_adapter_failure_conditions exOrigin exDestination (some exOrs)).2
    exRoute exRoute_eval
